import Mathlib

/-!
Shallow embedding of the UnrealWriter editor plugin
(`Source/UnrealWriter/Private/*.cpp`).

The plugin is boundary glue over host-engine subsystems.  The plugin's own
code (`UnrealWriterPythonAPI.cpp`, `ShotBrowserUtility.cpp`,
`EditorReimportManagerPythonAPIBPLibrary.cpp`) is translated faithfully;
host-engine primitives that the plugin calls (frame-time conversion, the
modal dialog, the desktop file dialog, the asset registry query, the
reimport manager) are not part of this repository, so they are modelled
from the spec, as the doc comments on those definitions state.  Host
results that depend on the user or on engine state (dialog responses,
registry contents, reimport success) are passed in as explicit inputs.
-/

namespace UnrealWriter

/-- Engine frame rate: a rational ticks-per-second value given as
`Numerator / Denominator` (`FFrameRate`). -/
structure FFrameRate where
  Numerator : Nat
  Denominator : Nat
deriving DecidableEq

/-- The rational value of a frame rate. -/
def FFrameRate.toRat (r : FFrameRate) : ℚ :=
  (r.Numerator : ℚ) / (r.Denominator : ℚ)

/-- Engine frame time: an integer frame number plus a sub-frame remainder
in `[0, 1)` (`FFrameTime`). -/
structure FFrameTime where
  FrameNumber : Int
  SubFrame : ℚ
deriving DecidableEq

/-- The exact rational time a frame time denotes, in frames. -/
def FFrameTime.toRat (t : FFrameTime) : ℚ :=
  (t.FrameNumber : ℚ) + t.SubFrame

/-- Build a frame time from an exact rational number of frames: the frame
number is the integer (floor) component, the sub-frame the remainder. -/
def FFrameTime.ofRat (q : ℚ) : FFrameTime :=
  ⟨⌊q⌋, q - ⌊q⌋⟩

/-- Modelled from the spec: the host engine's `FFrameRate::TransformTime`
converts a frame time between two tick resolutions by scaling with the
ratio of the rates ("convert the frame count first, then take the integer
frame-number component"). -/
def FFrameRate.TransformTime (t : FFrameTime) (src dst : FFrameRate) : FFrameTime :=
  FFrameTime.ofRat (t.toRat * dst.toRat / src.toRat)

/-- Engine qualified frame time: a frame time together with the rate it is
expressed in (`FQualifiedFrameTime`). -/
structure FQualifiedFrameTime where
  Time : FFrameTime
  Rate : FFrameRate
deriving DecidableEq

/-- `FQualifiedFrameTime::ConvertTo`: re-express this time at rate `dst`. -/
def FQualifiedFrameTime.ConvertTo (q : FQualifiedFrameTime) (dst : FFrameRate) : FFrameTime :=
  FFrameRate.TransformTime q.Time q.Rate dst

/-- A discrete frame-number range (`TRange<FFrameNumber>` with inclusive
lower and exclusive upper discrete bounds). -/
structure TRangeFrameNumber where
  lowerValue : Int
  upperValue : Int
deriving DecidableEq

/-- Modelled from the spec: the host `MovieScene::DiscreteSize`, the number
of ticks covered by a discrete range. -/
def DiscreteSize (r : TRangeFrameNumber) : Int :=
  r.upperValue - r.lowerValue

/-- The slice of `UMovieScene` the plugin reads: its tick resolution and
its playback range. -/
structure UMovieScene where
  tickResolution : FFrameRate
  playbackRange : TRangeFrameNumber
deriving DecidableEq

def UMovieScene.GetTickResolution (m : UMovieScene) : FFrameRate :=
  m.tickResolution

def UMovieScene.GetPlaybackRange (m : UMovieScene) : TRangeFrameNumber :=
  m.playbackRange

/-- The slice of `UMovieSceneSequence` the plugin reads. -/
structure UMovieSceneSequence where
  movieScene : UMovieScene
deriving DecidableEq

def UMovieSceneSequence.GetMovieScene (s : UMovieSceneSequence) : UMovieScene :=
  s.movieScene

/-- Engine `INDEX_NONE`: the sentinel row index that lets the host choose
the row automatically. -/
def INDEX_NONE : Int := -1

/-- One `AddSequenceOnRow` insertion recorded on a sub track: the child
sequence, the start frame, the duration in parent ticks and the requested
row index. -/
structure FSubSectionCall where
  sequence : UMovieSceneSequence
  startTime : Int
  duration : Int
  rowIndex : Int
deriving DecidableEq

/-- The slice of `UMovieSceneSubTrack` the plugin touches: the outer movie
scene (`GetTypedOuter<UMovieScene>`) and the recorded sub sections. -/
structure UMovieSceneSubTrack where
  outerMovieScene : UMovieScene
  sections : List FSubSectionCall
deriving DecidableEq

def UMovieSceneSubTrack.GetTypedOuterMovieScene (t : UMovieSceneSubTrack) : UMovieScene :=
  t.outerMovieScene

/-- Modelled from the spec: the host `UMovieSceneSubTrack::AddSequenceOnRow`
records a new sub section for the given sequence, start time, duration and
row index (row `INDEX_NONE` means the host picks the row). -/
def UMovieSceneSubTrack.AddSequenceOnRow (track : UMovieSceneSubTrack)
    (s : UMovieSceneSequence) (startTime : Int) (duration : Int) (rowIndex : Int) :
    UMovieSceneSubTrack :=
  { track with sections := track.sections ++ [⟨s, startTime, duration, rowIndex⟩] }

namespace UUnrealWriterPythonAPI

/-- `UUnrealWriterPythonAPI::AddSequenceToSubtrack`, translated line by
line from `UnrealWriterPythonAPI.cpp`: read the child's tick resolution and
playback-range size, convert that duration to the parent's tick resolution,
and insert the child at frame 0 on an automatically chosen row. -/
def AddSequenceToSubtrack (SubTrack : UMovieSceneSubTrack) (Sequence : UMovieSceneSequence) :
    UMovieSceneSubTrack :=
  let TickResolution : FFrameRate := Sequence.GetMovieScene.GetTickResolution
  let SequenceRange : FFrameTime := ⟨DiscreteSize Sequence.GetMovieScene.GetPlaybackRange, 0⟩
  let InnerDuration : FQualifiedFrameTime := ⟨SequenceRange, TickResolution⟩
  let OuterFrameRate : FFrameRate := SubTrack.GetTypedOuterMovieScene.GetTickResolution
  let OuterDuration : Int := (InnerDuration.ConvertTo OuterFrameRate).FrameNumber
  SubTrack.AddSequenceOnRow Sequence 0 OuterDuration INDEX_NONE

end UUnrealWriterPythonAPI

/-- The sections list after `AddSequenceToSubtrack`: the old sections plus
one new section at frame 0, row `INDEX_NONE`, whose duration is the floor
of the exact rational rate conversion of the child's playback-range size. -/
theorem AddSequenceToSubtrack_sections (track : UMovieSceneSubTrack)
    (seq : UMovieSceneSequence) :
    (UUnrealWriterPythonAPI.AddSequenceToSubtrack track seq).sections =
      track.sections ++ [⟨seq, 0,
        ⌊(DiscreteSize seq.movieScene.playbackRange : ℚ) *
            track.outerMovieScene.tickResolution.toRat /
            seq.movieScene.tickResolution.toRat⌋,
        INDEX_NONE⟩] := by
  simp [UUnrealWriterPythonAPI.AddSequenceToSubtrack, UMovieSceneSubTrack.AddSequenceOnRow,
    FQualifiedFrameTime.ConvertTo, FFrameRate.TransformTime, FFrameTime.ofRat,
    FFrameTime.toRat, UMovieSceneSequence.GetMovieScene, UMovieScene.GetTickResolution,
    UMovieScene.GetPlaybackRange, UMovieSceneSubTrack.GetTypedOuterMovieScene]

/-- Floor of a quotient of natural-number casts in `ℚ` is natural-number
division. -/
theorem intFloor_natCast_div (a b : Nat) :
    ⌊((a : ℚ)) / ((b : ℚ))⌋ = ((a / b : Nat) : Int) := by
  rw [← Int.natCast_floor_eq_floor (by positivity)]
  rw [Nat.floor_div_nat, Nat.floor_natCast]

/-- Engine `EAppReturnType::Type`: the possible answers of a modal dialog. -/
inductive EAppReturnType
  | No
  | Yes
  | YesAll
  | NoAll
  | Cancel
  | Ok
  | Retry
  | Continue
deriving DecidableEq

/-- Engine `EAppMsgType::Type`: the button layout of a modal dialog. -/
inductive EAppMsgType
  | Ok
  | YesNo
  | OkCancel
  | YesNoCancel
  | CancelRetryContinue
  | YesNoYesAllNoAll
  | YesNoYesAllNoAllCancel
deriving DecidableEq

/-- Modelled from the spec: the host `FMessageDialog::Open` blocks on a
modal prompt and returns the user's choice; for an `OkCancel` dialog the
only choices the host can report are `Ok` and `Cancel`, which callers pass
in here as the `userChoice` input. -/
def FMessageDialog_Open (msgType : EAppMsgType) (message : String) (title : String)
    (userChoice : EAppReturnType) : EAppReturnType :=
  userChoice

/-- The outcome of a native file-open dialog interaction: the user cancels,
or picks a list of absolute file paths. -/
inductive FileDialogOutcome
  | cancel
  | picked (files : List String)
deriving DecidableEq

/-- The slice of the host `IDesktopPlatform` service the plugin uses: the
outcome the user will produce when the dialog is shown. -/
structure IDesktopPlatform where
  userOutcome : FileDialogOutcome
deriving DecidableEq

/-- Modelled from the spec: the host `IDesktopPlatform::OpenFileDialog`
blocks on the native dialog and fills the out array with the selected
paths; on cancel it leaves the array empty. -/
def IDesktopPlatform.OpenFileDialog (p : IDesktopPlatform) (parentWindowHandle : Option Nat)
    (dialogTitle defaultPath defaultFile fileTypes : String) (flags : Nat) : List String :=
  match p.userOutcome with
  | FileDialogOutcome.cancel => []
  | FileDialogOutcome.picked files => files

/-- Result of the plugin's `OpenFileDialog`, instrumented with whether the
host dialog was invoked at all. -/
structure OpenFileDialogResult where
  outFileNames : List String
  dialogInvoked : Bool
deriving DecidableEq

/-- Engine `FName`: an interned name identifier built from a string. -/
structure FName where
  name : String
deriving DecidableEq

def FName.ofString (s : String) : FName := ⟨s⟩

/-- The slice of an asset-registry record the plugin uses. -/
structure FAssetData where
  packageName : FName
  assetName : FName
deriving DecidableEq

/-- The slice of `FARFilter` the plugin fills: the package names to match. -/
structure FARFilter where
  PackageNames : List FName
deriving DecidableEq

/-- Modelled from the spec: the host `IAssetRegistry::GetAssets` queries
the asset index and returns the records matching the filter, here the
records whose package name is among the filter's package names. -/
def AssetRegistry_GetAssets (registry : List FAssetData) (filter : FARFilter) :
    List FAssetData :=
  registry.filter (fun a => decide (a.packageName ∈ filter.PackageNames))

/-- The selection request the plugin hands to the content browser: the
filter it built and the asset records it asks the browser to select. -/
structure SyncBrowserRequest where
  assetFilter : FARFilter
  selectedAssets : List FAssetData
deriving DecidableEq

/-- A reference to an engine-owned `UObject` (an opaque handle). -/
structure UObjectRef where
  objectId : Nat
deriving DecidableEq

/-- The slice of `UClass` the plugin uses: an identity and the class
default object the host keeps for the class. -/
structure UClass where
  classId : Nat
  classDefaultObject : UObjectRef
deriving DecidableEq

/-- Modelled from the spec: the host `UClass::GetDefaultObject` returns the
class's one shared class-default object, created once when the class is
loaded; it never allocates a fresh instance per call. -/
def UClass.GetDefaultObject (c : UClass) : UObjectRef :=
  c.classDefaultObject

namespace UShotBrowserUtility

/-- `UShotBrowserUtility::Get`, translated from `ShotBrowserUtility.cpp`.
The input list models the host's `GetDerivedClasses` enumeration of the
currently loaded subclasses of `UShotBrowserUtility`; the source takes the
element at index `NumClasses - 1` when the list is non-empty and returns
null (`none`) otherwise. -/
def Get (ShotBrowserUtilityClasses : List UClass) : Option UObjectRef :=
  if h : ShotBrowserUtilityClasses.length > 0 then
    some (ShotBrowserUtilityClasses.get
      ⟨ShotBrowserUtilityClasses.length - 1, by omega⟩).GetDefaultObject
  else
    none

end UShotBrowserUtility

/-- The dispatch `CreateSequence` performs when a bridge object exists: the
target object and the forwarded arguments. -/
structure CreateSequenceDispatch where
  target : UObjectRef
  ShotID : String
  Characters : List String
  TemplateKwargs : List (String × String)
deriving DecidableEq

/-- A member call through a null object pointer: undefined behavior in the
source (the Blueprint event thunk dereferences `this`). -/
inductive NullMemberCall
  | nullDereference
deriving DecidableEq

namespace UUnrealWriterPythonAPI

/-- `UUnrealWriterPythonAPI::DisplaySequencerActionsDialog`: formats the
fixed message template with the sequence name, opens an `OkCancel` modal
dialog and returns whether the response was `Ok`. -/
def DisplaySequencerActionsDialog (SequenceName : String) (userChoice : EAppReturnType) :
    Bool :=
  let MessageTitle : String := "UnrealWriter Sequence Assembly"
  let Message : String :=
    "The following actions will be executed to assemble the Unreal sequence: " ++ SequenceName
  let Response : EAppReturnType :=
    FMessageDialog_Open EAppMsgType.OkCancel Message MessageTitle userChoice
  decide (Response = EAppReturnType.Ok)

/-- `UUnrealWriterPythonAPI::OpenFileDialog`: starts from an empty out
array, and only when the desktop platform service is available invokes the
host dialog with a null parent window handle, empty default path/file and
flags 0.  The `dialogInvoked` component records whether the host dialog was
invoked. -/
def OpenFileDialog (desktopPlatform : Option IDesktopPlatform)
    (DialogTitle : String) (FileTypes : String) : OpenFileDialogResult :=
  match desktopPlatform with
  | some p => ⟨p.OpenFileDialog none DialogTitle "" "" FileTypes 0, true⟩
  | none => ⟨[], false⟩

/-- `UUnrealWriterPythonAPI::SyncBrowserToAssets`: converts every input
path to a name, fills a filter with exactly those package names, queries
the asset registry and asks the content browser to select the results. -/
def SyncBrowserToAssets (registry : List FAssetData) (Paths : List String) :
    SyncBrowserRequest :=
  let pathNames : List FName := Paths.map FName.ofString
  let AssetFilter : FARFilter := ⟨pathNames⟩
  let assetData : List FAssetData := AssetRegistry_GetAssets registry AssetFilter
  ⟨AssetFilter, assetData⟩

/-- `UUnrealWriterPythonAPI::CreateSequence`: looks the bridge object up
with `UShotBrowserUtility::Get` and calls `CreateSequence` on it with no
null check; when the lookup returns null the member call dereferences the
null pointer, embedded as `Except.error`. -/
def CreateSequence (loadedClasses : List UClass) (ShotID : String)
    (Characters : List String) (TemplateKwargs : List (String × String)) :
    Except NullMemberCall CreateSequenceDispatch :=
  match UShotBrowserUtility.Get loadedClasses with
  | some bridge => Except.ok ⟨bridge, ShotID, Characters, TemplateKwargs⟩
  | none => Except.error NullMemberCall.nullDereference

end UUnrealWriterPythonAPI

/-- The argument record of one host `FReimportManager::Reimport` call, in
the host's parameter order. -/
structure FReimportCall where
  Obj : UObjectRef
  bAskForNewFileIfMissing : Bool
  bShowNotification : Bool
  PreferredReimportFile : String
  SpecifiedReimportHandler : Option Nat
  SourceFileIndex : Int
  bForceNewFile : Bool
  bAutomated : Bool
deriving DecidableEq

/-- The argument record of one host `FReimportManager::UpdateReimportPath`
call. -/
structure FUpdateReimportPathCall where
  Obj : UObjectRef
  Filename : String
  SourceFileIndex : Int
deriving DecidableEq

namespace UEditorReimportHandlerPythonAPI

/-- `UEditorReimportHandlerPythonAPI::CanReimport`: forwards to the host
reimport manager (modelled as the `host` capability predicate). -/
def CanReimport (host : UObjectRef → Bool) (Obj : UObjectRef) : Bool :=
  host Obj

/-- `UEditorReimportHandlerPythonAPI::UpdateReimportPath`: forwards its
three arguments unchanged to the host reimport manager; the returned
record is the call handed to the host. -/
def UpdateReimportPath (Obj : UObjectRef) (Filename : String) (SourceFileIndex : Int) :
    FUpdateReimportPathCall :=
  ⟨Obj, Filename, SourceFileIndex⟩

/-- `UEditorReimportHandlerPythonAPI::Reimport`: calls the host reimport
manager with the source's baked-in arguments
(`false, true, TEXT(""), nullptr, SourceFileIndex, false, true`) and
returns the host's boolean; the second component records the call handed
to the host, whose result is modelled by the `host` predicate. -/
def Reimport (host : FReimportCall → Bool) (Obj : UObjectRef) (SourceFileIndex : Int) :
    Bool × FReimportCall :=
  let call : FReimportCall := ⟨Obj, false, true, "", none, SourceFileIndex, false, true⟩
  (host call, call)

end UEditorReimportHandlerPythonAPI

/-- The lookup returns the class default object of the last enumerated
class whenever the list is non-empty (shared helper). -/
theorem UShotBrowserUtility_Get_getLast (classes : List UClass) (c : UClass)
    (h : classes.getLast? = some c) :
    UShotBrowserUtility.Get classes = some c.GetDefaultObject := by
  have hne : classes ≠ [] := by
    intro hnil
    rw [hnil] at h
    simp at h
  have hlen : classes.length > 0 := List.length_pos.mpr hne
  have hlast : classes.getLast hne = c := by
    rw [List.getLast?_eq_getLast classes hne] at h
    exact Option.some_injective _ h
  unfold UShotBrowserUtility.Get
  rw [dif_pos hlen]
  rw [← hlast, List.getLast_eq_get]

/-- Claim C1: for every child sequence of playback-range length `D` ticks
at tick resolution `R1` and every parent track at tick resolution `R2`,
`AddSequenceToSubtrack` inserts a section whose duration is
`floor (D * R2 / R1)` parent ticks — the integer frame-number component
(truncation) of the converted frame time, i.e. natural-number division. -/
theorem addSequenceToSubtrack_duration_floor
    (D R1 R2 : Nat) (h1 : 0 < R1) (h2 : 0 < R2)
    (lo : Int) (outerRange : TRangeFrameNumber) (prev : List FSubSectionCall) :
    (UUnrealWriterPythonAPI.AddSequenceToSubtrack
        ⟨⟨⟨R2, 1⟩, outerRange⟩, prev⟩
        ⟨⟨⟨R1, 1⟩, ⟨lo, lo + (D : Int)⟩⟩⟩).sections.getLast? =
      some ⟨⟨⟨⟨R1, 1⟩, ⟨lo, lo + (D : Int)⟩⟩⟩, 0, ((D * R2 / R1 : Nat) : Int), INDEX_NONE⟩ ∧
    ((D * R2 / R1 : Nat) : Int) = ⌊((D : ℚ) * (R2 : ℚ)) / (R1 : ℚ)⌋ := by
  have hfloor : ⌊((D : ℚ) * (R2 : ℚ)) / (R1 : ℚ)⌋ = ((D * R2 / R1 : Nat) : Int) := by
    rw [show ((D : ℚ) * (R2 : ℚ)) = ((D * R2 : Nat) : ℚ) by push_cast; ring]
    exact intFloor_natCast_div (D * R2) R1
  refine ⟨?_, hfloor.symm⟩
  rw [AddSequenceToSubtrack_sections, List.getLast?_concat]
  have hdur : ⌊(DiscreteSize ⟨lo, lo + (D : Int)⟩ : ℚ) *
      FFrameRate.toRat ⟨R2, 1⟩ / FFrameRate.toRat ⟨R1, 1⟩⌋ =
      ((D * R2 / R1 : Nat) : Int) := by
    rw [← hfloor]
    congr 1
    simp only [DiscreteSize, FFrameRate.toRat]
    push_cast
    ring
  rw [hdur]

/-- Witness for C1 at `D = 100`, `R1 = 24`, `R2 = 48`: the inserted
duration is `100 * 48 / 24 = 200` parent ticks. -/
theorem addSequenceToSubtrack_duration_floor_witness :
    ((0 : Nat) < 24 ∧ (0 : Nat) < 48) ∧
    (UUnrealWriterPythonAPI.AddSequenceToSubtrack
        ⟨⟨⟨48, 1⟩, ⟨0, 0⟩⟩, []⟩
        ⟨⟨⟨24, 1⟩, ⟨(0 : Int), (0 : Int) + ((100 : Nat) : Int)⟩⟩⟩).sections.getLast? =
      some ⟨⟨⟨⟨24, 1⟩, ⟨(0 : Int), (0 : Int) + ((100 : Nat) : Int)⟩⟩⟩, 0,
        ((100 * 48 / 24 : Nat) : Int), INDEX_NONE⟩ ∧
    ((100 * 48 / 24 : Nat) : Int) = 200 :=
  ⟨⟨by decide, by decide⟩,
   (addSequenceToSubtrack_duration_floor 100 24 48 (by decide) (by decide) 0 ⟨0, 0⟩ []).1,
   by decide⟩

/-- Claim C7: for every parent track and child sequence,
`AddSequenceToSubtrack` appends exactly one section: the child, inserted
at frame 0, on row `INDEX_NONE` (row choice left to the host), spanning
the integer component of the exact rate-converted playback-range size. -/
theorem addSequenceToSubtrack_inserts_at_zero (track : UMovieSceneSubTrack)
    (seq : UMovieSceneSequence) :
    ∃ s : FSubSectionCall,
      (UUnrealWriterPythonAPI.AddSequenceToSubtrack track seq).sections =
        track.sections ++ [s] ∧
      s.sequence = seq ∧ s.startTime = 0 ∧ s.rowIndex = INDEX_NONE ∧
      s.duration = ⌊(DiscreteSize seq.GetMovieScene.GetPlaybackRange : ℚ) *
          track.GetTypedOuterMovieScene.GetTickResolution.toRat /
          seq.GetMovieScene.GetTickResolution.toRat⌋ :=
  ⟨_, AddSequenceToSubtrack_sections track seq, rfl, rfl, rfl, rfl⟩

/-- Claim C2: `UShotBrowserUtility::Get` returns null exactly when zero
subclasses are enumerated, and otherwise the default object of the last
element of the enumerated subclass list; being a function of the class
list alone, a fixed list yields the same result on every call. -/
theorem shotBrowserUtility_Get_spec (classes : List UClass) :
    (UShotBrowserUtility.Get classes = none ↔ classes = []) ∧
    ∀ c : UClass, classes.getLast? = some c →
      UShotBrowserUtility.Get classes = some c.GetDefaultObject := by
  refine ⟨⟨?_, ?_⟩, ?_⟩
  · intro h
    cases classes with
    | nil => rfl
    | cons a l =>
      have hsome := UShotBrowserUtility_Get_getLast (a :: l) ((a :: l).getLast (by simp))
        (List.getLast?_eq_getLast _ (by simp))
      rw [hsome] at h
      simp at h
  · intro h
    subst h
    rfl
  · intro c hc
    exact UShotBrowserUtility_Get_getLast classes c hc

/-- Witness for C2 on a two-element class list: the lookup returns the
default object of the second (last) class. -/
theorem shotBrowserUtility_Get_spec_witness :
    ([⟨1, ⟨10⟩⟩, ⟨2, ⟨20⟩⟩] : List UClass).getLast? = some ⟨2, ⟨20⟩⟩ ∧
    UShotBrowserUtility.Get [⟨1, ⟨10⟩⟩, ⟨2, ⟨20⟩⟩] =
      some (UClass.GetDefaultObject ⟨2, ⟨20⟩⟩) :=
  ⟨by decide, (shotBrowserUtility_Get_spec [⟨1, ⟨10⟩⟩, ⟨2, ⟨20⟩⟩]).2 ⟨2, ⟨20⟩⟩ (by decide)⟩

/-- Claim C3 counterexample: with zero registered subclasses,
`CreateSequence` does not complete without error — the source performs the
member call on the null lookup result with no null check, so the call
faults instead of being a no-op. -/
theorem createSequence_noImpl_counterexample :
    UUnrealWriterPythonAPI.CreateSequence [] "shot010" [] [] =
      Except.error NullMemberCall.nullDereference := rfl

/-- Claim C3 amended: when no implementation is registered, `CreateSequence`
performs the member call through the null lookup result without a null
check, so for every argument triple it faults with a null dereference and
performs no dispatch; it is not a safe no-op. -/
theorem createSequence_noImpl_faults (ShotID : String) (Characters : List String)
    (TemplateKwargs : List (String × String)) :
    UUnrealWriterPythonAPI.CreateSequence [] ShotID Characters TemplateKwargs =
      Except.error NullMemberCall.nullDereference := rfl

/-- Claim C4: for every title and every response an `OkCancel` modal can
produce (`Ok` or `Cancel`), `DisplaySequencerActionsDialog` returns `true`
iff the user chose `Ok`, and `false` iff the user chose `Cancel`; no other
outcome is possible. -/
theorem displaySequencerActionsDialog_spec (SequenceName : String)
    (choice : EAppReturnType)
    (h : choice = EAppReturnType.Ok ∨ choice = EAppReturnType.Cancel) :
    (UUnrealWriterPythonAPI.DisplaySequencerActionsDialog SequenceName choice = true ↔
      choice = EAppReturnType.Ok) ∧
    (UUnrealWriterPythonAPI.DisplaySequencerActionsDialog SequenceName choice = false ↔
      choice = EAppReturnType.Cancel) := by
  rcases h with h | h <;> subst h <;>
    simp [UUnrealWriterPythonAPI.DisplaySequencerActionsDialog, FMessageDialog_Open]

/-- Witness for C4 at the cancel response: the dialog returns `false`. -/
theorem displaySequencerActionsDialog_spec_witness :
    (EAppReturnType.Cancel = EAppReturnType.Ok ∨
      EAppReturnType.Cancel = EAppReturnType.Cancel) ∧
    (UUnrealWriterPythonAPI.DisplaySequencerActionsDialog "MySeq" EAppReturnType.Cancel = false ↔
      EAppReturnType.Cancel = EAppReturnType.Cancel) :=
  ⟨Or.inr rfl,
   (displaySequencerActionsDialog_spec "MySeq" EAppReturnType.Cancel (Or.inr rfl)).2⟩

/-- Claim C5: for every title and file-type filter, a null desktop-platform
handle yields the empty path list without invoking the host dialog, and a
user cancel yields the empty path list as well. -/
theorem openFileDialog_unavailable_or_cancel (DialogTitle FileTypes : String) :
    UUnrealWriterPythonAPI.OpenFileDialog none DialogTitle FileTypes = ⟨[], false⟩ ∧
    UUnrealWriterPythonAPI.OpenFileDialog (some ⟨FileDialogOutcome.cancel⟩)
      DialogTitle FileTypes = ⟨[], true⟩ :=
  ⟨rfl, rfl⟩

/-- Claim C6: `SyncBrowserToAssets` builds the filter from exactly the name
identifiers of the input paths (one per path, no additions or omissions,
order-insensitive as a multiset) and asks the browser to select exactly the
records the query returns: those whose package name is among the filter's
names. -/
theorem syncBrowserToAssets_spec (registry : List FAssetData) (Paths : List String) :
    ((UUnrealWriterPythonAPI.SyncBrowserToAssets registry Paths).assetFilter.PackageNames :
        Multiset FName) = ((Paths.map FName.ofString : List FName) : Multiset FName) ∧
    ∀ a : FAssetData,
      a ∈ (UUnrealWriterPythonAPI.SyncBrowserToAssets registry Paths).selectedAssets ↔
        a ∈ registry ∧ a.packageName ∈
          (UUnrealWriterPythonAPI.SyncBrowserToAssets registry Paths).assetFilter.PackageNames := by
  refine ⟨rfl, ?_⟩
  intro a
  simp [UUnrealWriterPythonAPI.SyncBrowserToAssets, AssetRegistry_GetAssets, List.mem_filter]

/-- Claim C8: `Reimport` hands the host exactly the baked-in flags
(`bAskForNewFileIfMissing = false`, `bShowNotification = true`, empty
preferred file, no specified handler, `bForceNewFile = false`,
`bAutomated = true`), varying only the asset and the slot index, and
returns exactly the host's boolean. -/
theorem reimport_forwards_fixed_args (host : FReimportCall → Bool)
    (Obj : UObjectRef) (SourceFileIndex : Int) :
    (UEditorReimportHandlerPythonAPI.Reimport host Obj SourceFileIndex).2 =
      ⟨Obj, false, true, "", none, SourceFileIndex, false, true⟩ ∧
    (UEditorReimportHandlerPythonAPI.Reimport host Obj SourceFileIndex).1 =
      host ⟨Obj, false, true, "", none, SourceFileIndex, false, true⟩ :=
  ⟨rfl, rfl⟩

/-- Claim C9: `UpdateReimportPath` forwards asset, file path and slot index
unchanged to the host for every integer index, negative and out-of-range
included; this layer performs no bounds validation. -/
theorem updateReimportPath_forwards_unchanged (Obj : UObjectRef) (Filename : String)
    (SourceFileIndex : Int) :
    UEditorReimportHandlerPythonAPI.UpdateReimportPath Obj Filename SourceFileIndex =
      ⟨Obj, Filename, SourceFileIndex⟩ :=
  rfl

/-- Claim C10: with at least one subclass registered, `Get` returns the
selected class's one shared class-default object held by the class (not a
fresh instance) — the identical reference on every call with the same
list — and every `CreateSequence` dispatch targets exactly that object. -/
theorem shotBrowserUtility_Get_shared_cdo (classes : List UClass) (c : UClass)
    (h : classes.getLast? = some c) :
    UShotBrowserUtility.Get classes = some c.classDefaultObject ∧
    ∀ ShotID Characters TemplateKwargs,
      UUnrealWriterPythonAPI.CreateSequence classes ShotID Characters TemplateKwargs =
        Except.ok ⟨c.classDefaultObject, ShotID, Characters, TemplateKwargs⟩ := by
  have hget := UShotBrowserUtility_Get_getLast classes c h
  refine ⟨hget, ?_⟩
  intro ShotID Characters TemplateKwargs
  unfold UUnrealWriterPythonAPI.CreateSequence
  rw [hget]
  rfl

/-- Witness for C10 on a two-element class list: the dispatch targets the
last class's default object. -/
theorem shotBrowserUtility_Get_shared_cdo_witness :
    ([⟨1, ⟨10⟩⟩, ⟨2, ⟨20⟩⟩] : List UClass).getLast? = some ⟨2, ⟨20⟩⟩ ∧
    UUnrealWriterPythonAPI.CreateSequence [⟨1, ⟨10⟩⟩, ⟨2, ⟨20⟩⟩]
        "shot020" ["alice"] [("character", "alice")] =
      Except.ok ⟨⟨20⟩, "shot020", ["alice"], [("character", "alice")]⟩ :=
  ⟨by decide,
   (shotBrowserUtility_Get_shared_cdo [⟨1, ⟨10⟩⟩, ⟨2, ⟨20⟩⟩] ⟨2, ⟨20⟩⟩ (by decide)).2
     "shot020" ["alice"] [("character", "alice")]⟩

end UnrealWriter
